import Mathlib

/-!
Verification of a minimal SQLAlchemy-based note-taking persistence layer
(`package/conf.py`, `package/category.py`, `package/note.py`).

The embedding models:
* the module-level environment reads in `conf.py` (`os.environ[...]`, which
  raises `KeyError` on a missing variable) as `loadConfig` over an `Env`;
* the persistent MySQL state as `DBState` (a `categories` table, a `notes`
  table, auto-increment counters, and flags for database/table existence);
* the SQLAlchemy session as `Session` (committed `DBState` plus the list of
  pending added records; `autoflush=False`, so queries see only committed
  state);
* the constraints declared in the schema (`String(10)` under strict MySQL,
  `unique=True` on `categories.name`, `nullable=False`, the foreign key
  `notes.category_id REFERENCES categories.id`) as checks performed by the
  commit functions, mirroring enforcement by the database at commit time;
* `save_to_db`'s `try: add; commit except Exception: print e` as a total
  function returning the new session together with an optional logged error
  — a caught-and-swallowed exception leaves the pending set in place (no
  rollback) and the committed state unchanged.
-/

namespace SqlA

/-! ## conf.py: module-level configuration reads -/

/-- A process environment: a partial map from variable names to values. -/
def Env : Type := String → Option String

/-- Error raised by a failed `os.environ[key]` lookup. -/
inductive ConfError where
  | keyError (key : String)
deriving DecidableEq, Repr

/-- Models `os.environ[key]`: returns the value or raises `KeyError(key)`. -/
def osEnviron (env : Env) (key : String) : Except ConfError String :=
  match env key with
  | some v => Except.ok v
  | none => Except.error (ConfError.keyError key)

/-- The five module-level configuration values read by `conf.py`. -/
structure Config where
  db_name : String
  db_user_name : String
  db_user_pass : String
  db_url : String
  db_port : String
deriving DecidableEq, Repr

/-- The environment variable names `conf.py` actually reads, in order. -/
def requiredEnvVars : List String :=
  ["SQLALCHEMY_MYSQL_DB_NAME", "SQLALCHEMY_MYSQL_DB_USER_NAME",
   "SQLALCHEMY_MYSQL_DB_PASS", "SQLALCHEMY_MYSQL_DB_URL",
   "SQLALCHEMY_MYSQL_DB_PORT"]

/-- The module-level reads of `conf.py`: five `os.environ[...]` lookups with
no default; the first missing variable aborts the import with `KeyError`. -/
def loadConfig (env : Env) : Except ConfError Config :=
  match osEnviron env "SQLALCHEMY_MYSQL_DB_NAME" with
  | Except.error e => Except.error e
  | Except.ok n =>
    match osEnviron env "SQLALCHEMY_MYSQL_DB_USER_NAME" with
    | Except.error e => Except.error e
    | Except.ok u =>
      match osEnviron env "SQLALCHEMY_MYSQL_DB_PASS" with
      | Except.error e => Except.error e
      | Except.ok p =>
        match osEnviron env "SQLALCHEMY_MYSQL_DB_URL" with
        | Except.error e => Except.error e
        | Except.ok h =>
          match osEnviron env "SQLALCHEMY_MYSQL_DB_PORT" with
          | Except.error e => Except.error e
          | Except.ok o =>
            Except.ok { db_name := n, db_user_name := u, db_user_pass := p,
                        db_url := h, db_port := o }

/-! ## Persistent database state -/

/-- A committed row of the `categories` table
(`id INTEGER PRIMARY KEY, name VARCHAR(10) NOT NULL UNIQUE`). -/
structure CategoryRow where
  id : Nat
  name : String
deriving DecidableEq, Repr

/-- A committed row of the `notes` table (`id INTEGER PRIMARY KEY,
text TEXT NOT NULL, category_id INTEGER NOT NULL REFERENCES categories(id)`).
`category_id` is a bare `Nat` because the column is declared non-nullable. -/
structure NoteRow where
  id : Nat
  text : String
  category_id : Nat
deriving DecidableEq, Repr

/-- The persistent state of the MySQL server as seen by this program:
whether `CREATE DATABASE` has run, whether `create_all` has built the two
tables, the committed rows, and the auto-increment counters. -/
structure DBState where
  dbExists : Bool
  tablesExist : Bool
  categories : List CategoryRow
  notes : List NoteRow
  nextCategoryId : Nat
  nextNoteId : Nat
deriving DecidableEq, Repr

/-! ## Transient ORM objects -/

/-- A transient `Category` instance: `id` is `none` until the database
assigns one. -/
structure Category where
  id : Option Nat
  name : String
deriving DecidableEq, Repr

/-- A transient `Note` instance: `id` and `category_id` are Python
attributes and may be unset (`None`) before persistence. -/
structure Note where
  id : Option Nat
  text : String
  category_id : Option Nat
deriving DecidableEq, Repr

/-- The `Category` object materialized from a committed row by a query. -/
def toCategory (r : CategoryRow) : Category :=
  { id := some r.id, name := r.name }

/-- The `Note` object materialized from a committed row by a query. -/
def toNote (r : NoteRow) : Note :=
  { id := some r.id, text := r.text, category_id := some r.category_id }

/-! ## conf.py: schema lifecycle -/

/-- Models `create_db`: `CREATE DATABASE IF NOT EXISTS` then `USE` — a no-op when
the database already exists. -/
def create_db (s : DBState) : DBState :=
  { s with dbExists := true }

/-- Models `Base.metadata.create_all(engine)`: creates the declared tables, empty,
skipping the step entirely when they already exist. -/
def create_all (s : DBState) : DBState :=
  if s.tablesExist then s
  else { s with tablesExist := true, categories := [], notes := [],
                nextCategoryId := 1, nextNoteId := 1 }

/-- Models `init_db`: `create_db()` followed by `Base.metadata.create_all(engine)`. -/
def init_db (s : DBState) : DBState :=
  create_all (create_db s)

/-- Models `drop_db`: `DROP DATABASE IF EXISTS` — removes tables and rows. -/
def drop_db (_s : DBState) : DBState :=
  { dbExists := false, tablesExist := false, categories := [], notes := [],
    nextCategoryId := 1, nextNoteId := 1 }

/-! ## Commit semantics -/

/-- Errors the database raises during a commit (all subclasses of
`Exception` in the Python driver, hence caught by `save_to_db`). -/
inductive DbError where
  | noSuchTable
  | dataTooLong
  | uniqueViolation
  | notNullViolation
  | fkViolation
deriving DecidableEq, Repr

/-- Committing an added `Category`: the database checks that the tables
exist, that the name fits `VARCHAR(10)` (strict MySQL rejects longer data),
and the `UNIQUE` constraint on `name`; on success it assigns the next
auto-increment id. -/
def commitCategory (s : DBState) (c : Category) : Except DbError DBState :=
  if s.tablesExist = false then Except.error DbError.noSuchTable
  else if 10 < c.name.length then Except.error DbError.dataTooLong
  else if s.categories.any (fun r => r.name == c.name) then
    Except.error DbError.uniqueViolation
  else
    Except.ok { s with
      categories := s.categories ++ [{ id := s.nextCategoryId, name := c.name }],
      nextCategoryId := s.nextCategoryId + 1 }

/-- Committing an added `Note`: the database checks that the tables exist,
the `NOT NULL` constraint on `category_id`, and the foreign key into
`categories.id`; on success it assigns the next auto-increment id. -/
def commitNote (s : DBState) (n : Note) : Except DbError DBState :=
  if s.tablesExist = false then Except.error DbError.noSuchTable
  else
    match n.category_id with
    | none => Except.error DbError.notNullViolation
    | some cid =>
      if s.categories.any (fun r => r.id == cid) then
        Except.ok { s with
          notes := s.notes ++ [{ id := s.nextNoteId, text := n.text, category_id := cid }],
          nextNoteId := s.nextNoteId + 1 }
      else Except.error DbError.fkViolation

/-- A record passed to `save_to_db` — either entity class. -/
inductive Rec where
  | cat (c : Category)
  | note (n : Note)
deriving DecidableEq, Repr

/-- Commit one pending record. -/
def commitRec (s : DBState) : Rec → Except DbError DBState
  | Rec.cat c => commitCategory s c
  | Rec.note n => commitNote s n

/-- Models `session.commit()`: flushes every pending record in order; the first
database error aborts the whole commit (nothing is persisted). -/
def flush (s : DBState) : List Rec → Except DbError DBState
  | [] => Except.ok s
  | r :: rs =>
    match commitRec s r with
    | Except.ok s' => flush s' rs
    | Except.error e => Except.error e

/-- The process-wide SQLAlchemy session: the committed database state plus
the records added but not yet successfully committed. -/
structure Session where
  db : DBState
  pending : List Rec
deriving DecidableEq, Repr

/-- Models `save_to_db(record)`: `session.add(record)` then `session.commit()`
inside `try/except Exception: print e`. The function is total — no error
escapes to the caller. On success the pending set is emptied; on failure
the exception is logged (the `Option DbError` component), the committed
state is untouched, and — with no `rollback()` — the pending set is kept. -/
def save_to_db (sess : Session) (r : Rec) : Session × Option DbError :=
  let pending := sess.pending ++ [r]
  match flush sess.db pending with
  | Except.ok db' => ({ db := db', pending := [] }, none)
  | Except.error e => ({ db := sess.db, pending := pending }, some e)

/-- Models `Category.save`: delegates to `conf.save_to_db(self)`. -/
def Category.save (self : Category) (sess : Session) : Session × Option DbError :=
  save_to_db sess (Rec.cat self)

/-- Models `Note.save`: delegates to `conf.save_to_db(self)`. -/
def Note.save (self : Note) (sess : Session) : Session × Option DbError :=
  save_to_db sess (Rec.note self)

/-! ## Queries (autoflush=False: they read only committed state) -/

/-- Models `Category.search_by_name(name)`:
`session.query(Category).filter(Category.name == name)` — the rows whose
name equals `name`, materialized as `Category` objects. -/
def search_by_name (s : DBState) (name : String) : List Category :=
  (s.categories.filter (fun r => r.name == name)).map toCategory

/-- SQLAlchemy `Query.one()`: exactly one result, or `NoResultFound` /
`MultipleResultsFound`. -/
inductive QueryError where
  | noResultFound
  | multipleResultsFound
deriving DecidableEq, Repr

/-- Models `.one()` on a query result. -/
def one (l : List Category) : Except QueryError Category :=
  match l with
  | [] => Except.error QueryError.noResultFound
  | [c] => Except.ok c
  | _ => Except.error QueryError.multipleResultsFound

/-- Models `Category.find_by_name(name)`: the same filter followed by `.one()`;
the cardinality errors are not caught and propagate to the caller. -/
def find_by_name (s : DBState) (name : String) : Except QueryError Category :=
  one (search_by_name s name)

/-- Models `Category.notes(self)`:
`session.query(Note).filter(Note.category_id == self.id)`. When `self.id`
is `None` the rendered SQL predicate (`category_id IS NULL`) matches no row
of the non-nullable column. -/
def Category.notes (self : Category) (s : DBState) : List Note :=
  (s.notes.filter (fun r => some r.category_id == self.id)).map toNote


/-! ## Concrete fixtures used by witnesses and counterexamples -/

/-- A freshly initialized, empty database (both tables exist, no rows). -/
def dbEmpty : DBState :=
  { dbExists := true, tablesExist := true, categories := [], notes := [],
    nextCategoryId := 1, nextNoteId := 1 }

/-- A database holding the single category row `(1, "work")`. -/
def dbOneCat : DBState :=
  { dbExists := true, tablesExist := true,
    categories := [{ id := 1, name := "work" }], notes := [],
    nextCategoryId := 2, nextNoteId := 1 }

/-- An environment defining exactly the five variable names the claim
expects (`DB_NAME`, `DB_USER_NAME`, `DB_PASS`, `DB_URL`, `DB_PORT`) —
none of the names `conf.py` actually reads. -/
def envClaimNames : Env := fun k =>
  match k with
  | "DB_NAME" => some "mydb"
  | "DB_USER_NAME" => some "root"
  | "DB_PASS" => some "root"
  | "DB_URL" => some "127.0.0.1"
  | "DB_PORT" => some "3306"
  | _ => none

/-- An environment defining exactly the five variables `conf.py` reads. -/
def envActualNames : Env := fun k =>
  match k with
  | "SQLALCHEMY_MYSQL_DB_NAME" => some "mydb"
  | "SQLALCHEMY_MYSQL_DB_USER_NAME" => some "root"
  | "SQLALCHEMY_MYSQL_DB_PASS" => some "root"
  | "SQLALCHEMY_MYSQL_DB_URL" => some "127.0.0.1"
  | "SQLALCHEMY_MYSQL_DB_PORT" => some "3306"
  | _ => none

/-! ## C1 -/

/-- C1: for every session state and every record, `save_to_db` returns
normally (it is a total function); whenever the commit fails with any
database error `e`, the error is caught and only logged — the committed
state is left exactly as it was, no rollback is issued (the pending set,
including the failed record, is retained in the session), and the caller
gets no exception. -/
theorem save_to_db_swallows_commit_errors (sess : Session) (r : Rec) (e : DbError)
    (h : flush sess.db (sess.pending ++ [r]) = Except.error e) :
    save_to_db sess r = ({ db := sess.db, pending := sess.pending ++ [r] }, some e) := by
  simp [save_to_db, h]

/-- Witness for C1: saving a duplicate of the already-present category
`"work"` makes the commit fail with a unique-constraint violation, which
`save_to_db` swallows, leaving the database untouched and the record
pending. -/
theorem save_to_db_swallows_commit_errors_witness :
    flush dbOneCat ([] ++ [Rec.cat { id := none, name := "work" }]) =
      Except.error DbError.uniqueViolation ∧
    save_to_db { db := dbOneCat, pending := [] } (Rec.cat { id := none, name := "work" }) =
      ({ db := dbOneCat, pending := [] ++ [Rec.cat { id := none, name := "work" }] },
        some DbError.uniqueViolation) :=
  ⟨by rfl,
   save_to_db_swallows_commit_errors { db := dbOneCat, pending := [] }
     (Rec.cat { id := none, name := "work" }) DbError.uniqueViolation (by rfl)⟩

/-! ## C2 -/

/-- Counterexample to C2 as stated: an environment that defines all five
variables the claim names (`DB_NAME`, `DB_USER_NAME`, `DB_PASS`, `DB_URL`,
`DB_PORT`) still fails to start — `conf.py` raises `KeyError` for
`SQLALCHEMY_MYSQL_DB_NAME`, because those are not the names it reads. -/
theorem conf_env_names_counterexample :
    envClaimNames "DB_NAME" = some "mydb" ∧
    envClaimNames "DB_USER_NAME" = some "root" ∧
    envClaimNames "DB_PASS" = some "root" ∧
    envClaimNames "DB_URL" = some "127.0.0.1" ∧
    envClaimNames "DB_PORT" = some "3306" ∧
    loadConfig envClaimNames =
      Except.error (ConfError.keyError "SQLALCHEMY_MYSQL_DB_NAME") := by
  refine ⟨rfl, rfl, rfl, rfl, rfl, rfl⟩

/-- C2 (amended): at startup `conf.py` reads exactly the five required
environment variables `SQLALCHEMY_MYSQL_DB_NAME`,
`SQLALCHEMY_MYSQL_DB_USER_NAME`, `SQLALCHEMY_MYSQL_DB_PASS`,
`SQLALCHEMY_MYSQL_DB_URL`, `SQLALCHEMY_MYSQL_DB_PORT`, with no defaults:
startup succeeds iff all five are present; on success every configuration
value comes verbatim from the environment; any failure is a `KeyError`
naming one of the five required variables that is indeed absent. -/
theorem loadConfig_requires_five_env_vars (env : Env) :
    ((∃ cfg, loadConfig env = Except.ok cfg) ↔
      ∀ k ∈ requiredEnvVars, (env k).isSome = true) ∧
    (∀ cfg, loadConfig env = Except.ok cfg →
      env "SQLALCHEMY_MYSQL_DB_NAME" = some cfg.db_name ∧
      env "SQLALCHEMY_MYSQL_DB_USER_NAME" = some cfg.db_user_name ∧
      env "SQLALCHEMY_MYSQL_DB_PASS" = some cfg.db_user_pass ∧
      env "SQLALCHEMY_MYSQL_DB_URL" = some cfg.db_url ∧
      env "SQLALCHEMY_MYSQL_DB_PORT" = some cfg.db_port) ∧
    (∀ err, loadConfig env = Except.error err →
      ∃ k, k ∈ requiredEnvVars ∧ err = ConfError.keyError k ∧ env k = none) := by
  unfold loadConfig osEnviron requiredEnvVars
  cases h1 : env "SQLALCHEMY_MYSQL_DB_NAME" <;>
    cases h2 : env "SQLALCHEMY_MYSQL_DB_USER_NAME" <;>
      cases h3 : env "SQLALCHEMY_MYSQL_DB_PASS" <;>
        cases h4 : env "SQLALCHEMY_MYSQL_DB_URL" <;>
          cases h5 : env "SQLALCHEMY_MYSQL_DB_PORT" <;>
    simp_all

/-- Witness for C2 (amended): with exactly the five `SQLALCHEMY_MYSQL_*`
variables present, startup succeeds. -/
theorem loadConfig_requires_five_env_vars_witness :
    ∃ cfg, loadConfig envActualNames = Except.ok cfg :=
  ((loadConfig_requires_five_env_vars envActualNames).1).mpr (by decide)

/-! ## C7 -/

/-- C7: `init_db` first runs `create_db` and then creates the declared
tables only when they do not already exist; it is idempotent — a second
call returns exactly the state left by the first (no table duplicated or
altered, no row touched) — and afterwards the database and both tables
exist. The function is total, so no error is raised. -/
theorem init_db_idempotent (s : DBState) :
    init_db (init_db s) = init_db s ∧
    (init_db s).tablesExist = true ∧ (init_db s).dbExists = true := by
  unfold init_db create_all create_db
  by_cases h : s.tablesExist <;> simp [h]

/-! ## C10 -/

/-- C10: for a `Category` instance that was never persisted (`id = None`),
`notes()` is empty in every database state: each committed `notes` row
carries a non-null `category_id` (the column is `NOT NULL`), and the SQL
predicate `category_id IS NULL` matches none of them. -/
theorem notes_of_transient_category_empty (s : DBState) (c : Category)
    (h : c.id = none) :
    c.notes s = [] := by
  unfold Category.notes
  rw [h]
  have hf : s.notes.filter (fun r => some r.category_id == none) = [] := by
    apply List.filter_eq_nil_iff.mpr
    intro a _
    simp
  rw [hf]
  rfl

/-- Witness for C10: a transient category with unset id has no notes even
in a database that holds note rows. -/
theorem notes_of_transient_category_empty_witness :
    Category.notes { id := none, name := "inbox" }
      { dbExists := true, tablesExist := true,
        categories := [{ id := 1, name := "work" }],
        notes := [{ id := 1, text := "Buy milk", category_id := 1 }],
        nextCategoryId := 2, nextNoteId := 2 } = [] :=
  notes_of_transient_category_empty _ _ rfl

/-! ## C5 -/

/-- C5: `find_by_name` returns the unique matching category when exactly
one row of `categories` matches the name, and otherwise surfaces the
cardinality error of `.one()` as its result — `NoResultFound` on zero
matches, `MultipleResultsFound` on two or more — with no handler between
the query and the caller. -/
theorem find_by_name_cardinality (s : DBState) (nm : String) :
    (∀ r, s.categories.filter (fun x => x.name == nm) = [r] →
      find_by_name s nm = Except.ok (toCategory r)) ∧
    (s.categories.filter (fun x => x.name == nm) = [] →
      find_by_name s nm = Except.error QueryError.noResultFound) ∧
    (2 ≤ (s.categories.filter (fun x => x.name == nm)).length →
      find_by_name s nm = Except.error QueryError.multipleResultsFound) := by
  refine ⟨?_, ?_, ?_⟩
  · intro r h
    simp [find_by_name, search_by_name, h, one]
  · intro h
    simp [find_by_name, search_by_name, h, one]
  · intro h
    unfold find_by_name search_by_name
    cases hf : s.categories.filter (fun x => x.name == nm) with
    | nil => rw [hf] at h; simp at h
    | cons a t =>
      cases t with
      | nil => rw [hf] at h; simp at h
      | cons b t2 => rfl

/-- Witness for C5: in a database whose only category row is `(1, "work")`,
`find_by_name "work"` returns that category. -/
theorem find_by_name_cardinality_witness :
    find_by_name dbOneCat "work" = Except.ok (toCategory { id := 1, name := "work" }) :=
  (find_by_name_cardinality dbOneCat "work").1 { id := 1, name := "work" } (by rfl)

/-! ## C8 -/

/-- C8: the result set of `search_by_name` is exactly the committed
categories whose name equals the given name — a pure filter with no
single-result enforcement; being a total function, it raises nothing on
zero or multiple matches. -/
theorem search_by_name_filter_semantics (s : DBState) (nm : String) (c : Category) :
    c ∈ search_by_name s nm ↔ ∃ r, r ∈ s.categories ∧ r.name = nm ∧ c = toCategory r := by
  unfold search_by_name
  rw [List.mem_map]
  constructor
  · rintro ⟨r, hr, hc⟩
    rw [List.mem_filter] at hr
    exact ⟨r, hr.1, by simpa using hr.2, hc.symm⟩
  · rintro ⟨r, hr, hn, hc⟩
    exact ⟨r, List.mem_filter.mpr ⟨hr, by simpa using hn⟩, hc.symm⟩

/-- Witness for C8: the category materialized from row `(1, "work")` is in
the result set of `search_by_name "work"`. -/
theorem search_by_name_filter_semantics_witness :
    toCategory { id := 1, name := "work" } ∈ search_by_name dbOneCat "work" :=
  (search_by_name_filter_semantics dbOneCat "work" _).mpr
    ⟨{ id := 1, name := "work" }, by decide, rfl, rfl⟩

/-! ## C3 -/

/-- C3: starting from a state whose `categories` table holds no row named
`nm` (with the schema in place and `nm` within the 10-character column
bound), saving a fresh `Category` named `nm` and then calling
`find_by_name nm` yields a category whose name is exactly `nm` and whose
id is a non-null database-assigned integer. -/
theorem save_category_then_find_by_name (s : DBState) (nm : String)
    (ht : s.tablesExist = true)
    (hlen : nm.length ≤ 10)
    (hfresh : ∀ r ∈ s.categories, r.name ≠ nm) :
    ∃ c, find_by_name
        ((Category.save { id := none, name := nm } { db := s, pending := [] }).1.db) nm
        = Except.ok c ∧ c.name = nm ∧ c.id ≠ none := by
  have hany : (s.categories.any (fun r => r.name == nm)) = false := by
    rw [List.any_eq_false]
    intro r hr
    simpa using hfresh r hr
  have hcommit : commitCategory s { id := none, name := nm } =
      Except.ok { s with
        categories := s.categories ++ [{ id := s.nextCategoryId, name := nm }],
        nextCategoryId := s.nextCategoryId + 1 } := by
    unfold commitCategory
    rw [ht]
    simp [hany, Nat.not_lt.mpr hlen]
  have hdb : (Category.save { id := none, name := nm } { db := s, pending := [] }).1.db =
      { s with categories := s.categories ++ [{ id := s.nextCategoryId, name := nm }],
               nextCategoryId := s.nextCategoryId + 1 } := by
    simp [Category.save, save_to_db, flush, commitRec, hcommit]
  refine ⟨toCategory { id := s.nextCategoryId, name := nm }, ?_, rfl, by simp [toCategory]⟩
  rw [hdb]
  unfold find_by_name search_by_name
  have h0 : s.categories.filter (fun r => r.name == nm) = [] := by
    apply List.filter_eq_nil_iff.mpr
    intro a ha
    simpa using hfresh a ha
  have hfil : (s.categories ++ [({ id := s.nextCategoryId, name := nm } : CategoryRow)]).filter
      (fun r => r.name == nm) = [{ id := s.nextCategoryId, name := nm }] := by
    rw [List.filter_append, h0]
    simp
  show one (List.map toCategory
      ((s.categories ++ [({ id := s.nextCategoryId, name := nm } : CategoryRow)]).filter
        (fun r => r.name == nm))) = Except.ok (toCategory { id := s.nextCategoryId, name := nm })
  rw [hfil]
  rfl

/-- Witness for C3: on the freshly initialized empty database, saving a
category named `"work"` and looking it up returns it with a non-null id. -/
theorem save_category_then_find_by_name_witness :
    ∃ c, find_by_name
        ((Category.save { id := none, name := "work" } { db := dbEmpty, pending := [] }).1.db)
        "work" = Except.ok c ∧ c.name = "work" ∧ c.id ≠ none :=
  save_category_then_find_by_name dbEmpty "work" rfl (by decide)
    (by intro r hr; simp [dbEmpty] at hr)

/-! ## C4 -/

/-- C4: saving a `Note` whose `category_id` matches no committed category
row leaves the committed database state completely unchanged (so no note
row becomes retrievable) and raises nothing past `save()` — the
foreign-key violation is merely logged. -/
theorem save_note_dangling_fk (s : DBState) (txt : String) (cid : Nat)
    (ht : s.tablesExist = true)
    (hfk : ∀ r ∈ s.categories, r.id ≠ cid) :
    (Note.save { id := none, text := txt, category_id := some cid }
        { db := s, pending := [] }).1.db = s ∧
    (Note.save { id := none, text := txt, category_id := some cid }
        { db := s, pending := [] }).2 = some DbError.fkViolation := by
  have hany : (s.categories.any (fun r => r.id == cid)) = false := by
    rw [List.any_eq_false]
    intro r hr
    simpa using hfk r hr
  have hcommit : commitNote s { id := none, text := txt, category_id := some cid } =
      Except.error DbError.fkViolation := by
    unfold commitNote
    rw [ht]
    simp [hany]
  constructor <;> simp [Note.save, save_to_db, flush, commitRec, hcommit]

/-- Witness for C4: saving a note that references the nonexistent category
id 1 on the empty database changes nothing and logs the violation. -/
theorem save_note_dangling_fk_witness :
    (Note.save { id := none, text := "orphan", category_id := some 1 }
        { db := dbEmpty, pending := [] }).1.db = dbEmpty ∧
    (Note.save { id := none, text := "orphan", category_id := some 1 }
        { db := dbEmpty, pending := [] }).2 = some DbError.fkViolation :=
  save_note_dangling_fk dbEmpty "orphan" 1 rfl (by intro r hr; simp [dbEmpty] at hr)

/-! ## C6: the uniqueness invariant -/

/-- No two committed category rows share a name. -/
def namesUnique (s : DBState) : Prop :=
  s.categories.Pairwise (fun a b => a.name ≠ b.name)

/-- A successful category commit passed the `UNIQUE` check on `name` and
appended exactly one row with the assigned auto-increment id. -/
theorem commitCategory_ok {s s' : DBState} {c : Category}
    (hc : commitCategory s c = Except.ok s') :
    s.categories.any (fun r => r.name == c.name) = false ∧
    s'.categories = s.categories ++ [{ id := s.nextCategoryId, name := c.name }] := by
  unfold commitCategory at hc
  by_cases h1 : s.tablesExist = false
  · rw [if_pos h1] at hc
    exact absurd hc (by simp)
  · rw [if_neg h1] at hc
    by_cases h2 : 10 < c.name.length
    · rw [if_pos h2] at hc
      exact absurd hc (by simp)
    · rw [if_neg h2] at hc
      by_cases h3 : s.categories.any (fun r => r.name == c.name) = true
      · rw [if_pos h3] at hc
        exact absurd hc (by simp)
      · rw [if_neg h3] at hc
        injection hc with h4
        exact ⟨by simpa using h3, by rw [← h4]⟩

/-- A successful note commit leaves the `categories` table untouched. -/
theorem commitNote_ok {s s' : DBState} {n : Note}
    (hc : commitNote s n = Except.ok s') : s'.categories = s.categories := by
  unfold commitNote at hc
  by_cases h1 : s.tablesExist = false
  · rw [if_pos h1] at hc
    exact absurd hc (by simp)
  · rw [if_neg h1] at hc
    cases hcat : n.category_id with
    | none =>
      rw [hcat] at hc
      exact absurd hc (by simp)
    | some cid =>
      rw [hcat] at hc
      have hc2 : (if (s.categories.any fun r => r.id == cid) = true then
          Except.ok { s with
            notes := s.notes ++ [{ id := s.nextNoteId, text := n.text, category_id := cid }],
            nextNoteId := s.nextNoteId + 1 }
        else Except.error DbError.fkViolation) = Except.ok s' := hc
      by_cases h2 : s.categories.any (fun r => r.id == cid) = true
      · rw [if_pos h2] at hc2
        injection hc2 with h3
        rw [← h3]
      · rw [if_neg h2] at hc2
        exact absurd hc2 (by simp)

/-- A successful commit of a single record preserves name uniqueness: a
duplicate category name is rejected by the `UNIQUE` constraint before the
row is added, and a note commit does not touch the `categories` table. -/
theorem commitRec_namesUnique {s s' : DBState} {r : Rec}
    (h : namesUnique s) (hc : commitRec s r = Except.ok s') : namesUnique s' := by
  cases r with
  | cat c =>
    have hc2 : commitCategory s c = Except.ok s' := hc
    obtain ⟨hno, hcat⟩ := commitCategory_ok hc2
    unfold namesUnique at h ⊢
    rw [hcat]
    apply List.pairwise_append.mpr
    refine ⟨h, List.pairwise_singleton _ _, ?_⟩
    intro a ha b hb
    have hb1 : b = { id := s.nextCategoryId, name := c.name } := by
      simpa using hb
    subst hb1
    have hfa := List.any_eq_false.mp hno a ha
    intro hEq
    exact hfa (by simp [hEq])
  | note n =>
    have hc2 : commitNote s n = Except.ok s' := hc
    unfold namesUnique at h ⊢
    rw [commitNote_ok hc2]
    exact h

/-- Flushing any pending list preserves name uniqueness. -/
theorem flush_namesUnique (rs : List Rec) : ∀ (s s' : DBState),
    namesUnique s → flush s rs = Except.ok s' → namesUnique s' := by
  induction rs with
  | nil =>
    intro s s' h hf
    unfold flush at hf
    simp at hf
    subst hf
    exact h
  | cons r rs ih =>
    intro s s' h hf
    unfold flush at hf
    cases hc : commitRec s r with
    | ok s1 =>
      rw [hc] at hf
      exact ih s1 s' (commitRec_namesUnique h hc) hf
    | error e =>
      rw [hc] at hf
      exact absurd hf (by simp)

/-- One `save_to_db` call preserves name uniqueness of the committed state
whether the commit succeeds or is swallowed. -/
theorem save_to_db_namesUnique (sess : Session) (r : Rec)
    (h : namesUnique sess.db) : namesUnique (save_to_db sess r).1.db := by
  show namesUnique
    ((match flush sess.db (sess.pending ++ [r]) with
      | Except.ok db' => (({ db := db', pending := [] } : Session), (none : Option DbError))
      | Except.error e =>
        (({ db := sess.db, pending := sess.pending ++ [r] } : Session), some e)).1.db)
  cases hf : flush sess.db (sess.pending ++ [r]) with
  | ok db' => exact flush_namesUnique _ _ _ h hf
  | error e => exact h

/-- An arbitrary sequence of `save()` calls threaded through the shared
session. -/
def saveAll (sess : Session) : List Rec → Session
  | [] => sess
  | r :: rs => saveAll (save_to_db sess r).1 rs

/-- Any sequence of saves preserves name uniqueness. -/
theorem saveAll_namesUnique (recs : List Rec) : ∀ (sess : Session),
    namesUnique sess.db → namesUnique (saveAll sess recs).db := by
  induction recs with
  | nil =>
    intro sess h
    exact h
  | cons r rs ih =>
    intro sess h
    exact ih _ (save_to_db_namesUnique sess r h)

/-- A list with pairwise-distinct names keeps at most one element once
filtered down to a single name. -/
theorem pairwise_filter_length_le_one (l : List CategoryRow) (nm : String)
    (h : l.Pairwise (fun a b => a.name ≠ b.name)) :
    (l.filter (fun r => r.name == nm)).length ≤ 1 := by
  have hp : (l.filter (fun r => r.name == nm)).Pairwise (fun a b => a.name ≠ b.name) :=
    List.Pairwise.filter _ h
  cases hf : l.filter (fun r => r.name == nm) with
  | nil => simp
  | cons a t =>
    cases t with
    | nil => simp
    | cons b t2 =>
      exfalso
      rw [hf] at hp
      have hab : a.name ≠ b.name :=
        List.rel_of_pairwise_cons hp (List.mem_cons_self b t2)
      have ha : a ∈ l.filter (fun r => r.name == nm) := by
        rw [hf]
        exact List.mem_cons_self _ _
      have hb : b ∈ l.filter (fun r => r.name == nm) := by
        rw [hf]
        exact List.mem_cons_of_mem _ (List.mem_cons_self _ _)
      have ha2 : a.name = nm := by simpa using (List.mem_filter.mp ha).2
      have hb2 : b.name = nm := by simpa using (List.mem_filter.mp hb).2
      exact hab (ha2.trans hb2.symm)

/-- C6: category-name uniqueness is an invariant of the persisted state —
from any state whose committed categories already have pairwise-distinct
names, after any sequence of `save()` calls (in particular two saves of
the same name, where the second commit is rejected by the `UNIQUE`
constraint and swallowed), `search_by_name` returns at most one row. -/
theorem category_name_unique_invariant (sess : Session) (recs : List Rec) (nm : String)
    (h : namesUnique sess.db) :
    (search_by_name (saveAll sess recs).db nm).length ≤ 1 := by
  have h2 := saveAll_namesUnique recs sess h
  unfold search_by_name
  rw [List.length_map]
  exact pairwise_filter_length_le_one _ nm h2

/-- Witness for C6: saving two categories both named `"dup"` on the empty
database leaves `search_by_name "dup"` with at most one row. -/
theorem category_name_unique_invariant_witness :
    namesUnique dbEmpty ∧
    (search_by_name (saveAll { db := dbEmpty, pending := [] }
        [Rec.cat { id := none, name := "dup" }, Rec.cat { id := none, name := "dup" }]).db
      "dup").length ≤ 1 :=
  ⟨List.Pairwise.nil,
    category_name_unique_invariant { db := dbEmpty, pending := [] }
      [Rec.cat { id := none, name := "dup" }, Rec.cat { id := none, name := "dup" }]
      "dup" List.Pairwise.nil⟩

/-! ## C9 -/

/-- C9: `notes()` returns exactly the committed note rows whose
`category_id` equals this category's id; and for a persisted category `c`
with id `cid`, saving a fresh note referencing `cid` makes `c.notes`
contain that note exactly once (the freshness hypothesis on
`s.nextNoteId` states that the auto-increment counter is ahead of every
committed row, as the database guarantees). -/
theorem notes_query_semantics (s : DBState) (c : Category) :
    (∀ x, x ∈ c.notes s ↔ ∃ r, r ∈ s.notes ∧ some r.category_id = c.id ∧ x = toNote r) ∧
    (∀ cid txt, c.id = some cid → s.tablesExist = true →
      (∃ r, r ∈ s.categories ∧ r.id = cid) →
      (∀ r ∈ s.notes, r.id ≠ s.nextNoteId) →
      ((Category.notes c ((Note.save { id := none, text := txt, category_id := some cid }
          { db := s, pending := [] }).1.db)).count
        (toNote { id := s.nextNoteId, text := txt, category_id := cid }) = 1)) := by
  constructor
  · intro x
    unfold Category.notes
    rw [List.mem_map]
    constructor
    · rintro ⟨r, hr, hx⟩
      rw [List.mem_filter] at hr
      exact ⟨r, hr.1, by simpa using hr.2, hx.symm⟩
    · rintro ⟨r, hr, hEq, hx⟩
      exact ⟨r, List.mem_filter.mpr ⟨hr, by simp [hEq]⟩, hx.symm⟩
  · intro cid txt hcid ht hex hfresh
    have hany : s.categories.any (fun r => r.id == cid) = true := by
      rcases hex with ⟨r, hr, hid⟩
      exact List.any_eq_true.mpr ⟨r, hr, by simp [hid]⟩
    have hcommit : commitNote s { id := none, text := txt, category_id := some cid } =
        Except.ok { s with
          notes := s.notes ++ [{ id := s.nextNoteId, text := txt, category_id := cid }],
          nextNoteId := s.nextNoteId + 1 } := by
      unfold commitNote
      rw [ht]
      simp [hany]
    have hdb : (Note.save { id := none, text := txt, category_id := some cid }
        { db := s, pending := [] }).1.db =
        { s with
          notes := s.notes ++ [{ id := s.nextNoteId, text := txt, category_id := cid }],
          nextNoteId := s.nextNoteId + 1 } := by
      simp [Note.save, save_to_db, flush, commitRec, hcommit]
    rw [hdb]
    unfold Category.notes
    show ((List.filter (fun r => some r.category_id == c.id)
        (s.notes ++ [({ id := s.nextNoteId, text := txt, category_id := cid } : NoteRow)])).map
          toNote).count
        (toNote { id := s.nextNoteId, text := txt, category_id := cid }) = 1
    rw [List.filter_append, List.map_append, List.count_append]
    have hnew : List.filter (fun r => some r.category_id == c.id)
        [({ id := s.nextNoteId, text := txt, category_id := cid } : NoteRow)] =
        [{ id := s.nextNoteId, text := txt, category_id := cid }] := by
      rw [hcid]
      simp
    rw [hnew]
    have hzero : ((List.filter (fun r => some r.category_id == c.id) s.notes).map toNote).count
        (toNote { id := s.nextNoteId, text := txt, category_id := cid }) = 0 := by
      rw [List.count_eq_zero]
      intro hmem
      rcases List.mem_map.mp hmem with ⟨r, hrf, hEq⟩
      have hid : r.id = s.nextNoteId := by
        have h1 := congrArg Note.id hEq
        simpa [toNote] using h1
      exact hfresh r (List.mem_of_mem_filter hrf) hid
    rw [hzero]
    simp

/-- Witness for C9: with category `(1, "work")` persisted, saving the note
"Buy milk" for category 1 makes that category's `notes()` contain it
exactly once. -/
theorem notes_query_semantics_witness :
    (Category.notes { id := some 1, name := "work" }
      ((Note.save { id := none, text := "Buy milk", category_id := some 1 }
          { db := dbOneCat, pending := [] }).1.db)).count
      (toNote { id := 1, text := "Buy milk", category_id := 1 }) = 1 :=
  (notes_query_semantics dbOneCat { id := some 1, name := "work" }).2 1 "Buy milk" rfl rfl
    ⟨{ id := 1, name := "work" }, List.mem_cons_self _ _, rfl⟩
    (by intro r hr; simp [dbOneCat] at hr)

end SqlA
